import Mathlib

/-!
# Verification of the moyasar TypeScript SDK against its specification

This file is a shallow embedding, in Lean 4, of the parts of the SDK that the
spec's testable properties talk about:

* the webhook ingestion pipeline (`WebhookService.processWebhook` together
  with `WebhookUtils.parseWebhookPayload`, `WebhookUtils.validateWebhookPayload`,
  `WebhookUtils.verifyWebhookSignature` and `WebhookValidation.validateRequired`),
* the amount formatter (`PaymentUtils.formatAmount` / `PaymentUtils.parseAmount`),
* the payment lifecycle predicate `PaymentUtils.isPaymentFinal`,
* the request validators `PaymentUtils.validateCreatePaymentRequest` and
  `InvoiceUtils.validateBulkCreateRequest` (with an executable model of the
  zod schemas they call into).

JavaScript runtime values that can flow through the webhook pipeline are
modelled by the inductive type `JSVal`; JavaScript exceptions are modelled by
`Except`; JS numbers are modelled by exact integer/rational arithmetic
(the amounts involved are integers and the decimal renderings are exact,
see the comments on `formatAmount`).
-/

/-! ## A model of JavaScript runtime values

Webhook payloads arrive as untyped JavaScript values.  `JSVal` models the
value universe the pipeline code can observe: `undefined`, `null`, booleans,
numbers (integral; the payloads in question carry integer amounts), strings
and objects (ordered key/value lists, keys unique as in a JS object).
-/

inductive JSVal where
  | undef : JSVal
  | jnull : JSVal
  | bool (b : Bool) : JSVal
  | num (n : Int) : JSVal
  | str (s : String) : JSVal
  | obj (fields : List (String × JSVal)) : JSVal

/-- JS property read `o[k]` on an object: first binding of key `k`,
`undefined` when the key is absent. -/
def getField : List (String × JSVal) → String → JSVal
  | [], _ => .undef
  | (k, v) :: rest, key => if k = key then v else getField rest key

/-- JS `"k" in o`: the key is present (even when its value is `undefined`). -/
def hasKey (fields : List (String × JSVal)) (key : String) : Bool :=
  fields.any (fun kv => kv.1 = key)

/-- JS truthiness of a value. -/
def truthy : JSVal → Bool
  | .undef => false
  | .jnull => false
  | .bool b => b
  | .num n => n ≠ 0
  | .str s => s ≠ ""
  | .obj _ => true

/-- JS string coercion as used by template interpolation of a payload field. -/
def jsDisplay : JSVal → String
  | .undef => "undefined"
  | .jnull => "null"
  | .bool b => if b then "true" else "false"
  | .num n => toString n
  | .str s => s
  | .obj _ => "[object Object]"

/-- JS object spread update `\x7b...payload, data: v\x7d`: replaces the binding
of `"data"` in place when present, appends it otherwise. -/
def setDataField (fields : List (String × JSVal)) (v : JSVal) : List (String × JSVal) :=
  if hasKey fields "data" then
    fields.map (fun kv => if kv.1 = "data" then (kv.1, v) else kv)
  else
    fields ++ [("data", v)]

/-- JS `String.prototype.startsWith`, on character lists (the core
`String.startsWith` is `Substring`-based and does not reduce in the
kernel). -/
def jsStartsWith (s pre : String) : Bool := pre.data.isPrefixOf s.data

/-- JS `String.prototype.trim` (leading and trailing whitespace removed),
on character lists. -/
def jsTrim (s : String) : String :=
  String.mk (((s.data.dropWhile (fun c => c.isWhitespace)).reverse.dropWhile
    (fun c => c.isWhitespace)).reverse)

/-! ## Webhook feature: enums, errors, validation (src/features/webhook) -/

namespace Webhook

/-- Source `Object.values(WebhookEvent)` from `src/features/webhook/enums.ts`,
in declaration order. -/
def allWebhookEvents : List String :=
  ["payout_initiated", "payment_paid", "payment_failed", "payment_authorized",
   "payment_captured", "payment_refunded", "payment_voided", "payment_verified",
   "payment_abandoned", "payment_canceled", "payment_expired",
   "balance_transferred", "payout_paid", "payout_failed", "payout_canceled",
   "payout_returned"]

/-- The webhook error hierarchy of `src/features/webhook/errors.ts`, as the
pipeline distinguishes it:
* `base message` — a plain `WebhookError` (the class the authentication
  failure is thrown with);
* `validation message unexpectedPayload` — a `WebhookValidationError`, which
  additionally carries the offending payload in `unexpected_payload`.
-/
inductive WebhookErr where
  | base (message : String) : WebhookErr
  | validation (message : String) (unexpectedPayload : JSVal) : WebhookErr

/-- Does the error belong to the `WebhookValidationError` class
(structural / parse / metadata failures, as opposed to the authentication
failure which is a plain `WebhookError`)? -/
def WebhookErr.isValidation : WebhookErr → Bool
  | .validation _ _ => true
  | .base _ => false

/-- Criterion of `WebhookValidation.validateRequired` (webhook `validation.ts`):
a required field is missing when its value is `undefined`, `null` or the
empty string (strict `===` comparisons in the source). -/
def requiredMissing : JSVal → Bool
  | .undef => true
  | .jnull => true
  | .str s => s = ""
  | _ => false

/-- Model of `WebhookValidation.validateRequired(obj, requiredFields)`: one
`"<field> is required"` message per missing required field, in field order. -/
def validateRequired (fields : List (String × JSVal)) (required : List String) :
    List String :=
  (required.filter (fun f => requiredMissing (getField fields f))).map
    (fun f => f ++ " is required")

/-- Model of `WebhookValidation.isValidWebhookEvent`: `Object.values(WebhookEvent)
.includes(event)`; a non-string value never equals any of the string
constants. -/
def isValidWebhookEvent : JSVal → Bool
  | .str s => allWebhookEvents.contains s
  | _ => false

/-- Model of `WebhookUtils.validateWebhookPayload`: required top-level fields, known
event type (only checked when `type` is truthy), and `live` must be a
boolean. -/
def validateWebhookPayload (fields : List (String × JSVal)) : List String :=
  validateRequired fields ["id", "type", "created_at", "account_name", "data"]
    ++ (if truthy (getField fields "type") && !isValidWebhookEvent (getField fields "type")
        then ["Invalid webhook event type: " ++ jsDisplay (getField fields "type")]
        else [])
    ++ (match getField fields "live" with
        | .bool _ => []
        | _ => ["live field must be a boolean"])

/-- Model of `WebhookUtils.verifyWebhookSignature`: plain strict equality
`options.secret_token === payload.secret_token`.  A non-string
`secret_token` field is never strictly equal to the expected string. -/
def verifyWebhookSignature (fields : List (String × JSVal)) (secret_token : String) : Bool :=
  match getField fields "secret_token" with
  | .str s => secret_token = s
  | _ => false

/-- Message of the `WebhookValidationError` thrown when `JSON.parse` (or the
subsequent field access) throws inside `parseWebhookPayload`.  The source
interpolates the caught exception into the message; the exception text is
environment-specific and is not modelled. -/
def failedParseMsg : String := "Failed to parse webhook payload"

/-- Model of `WebhookUtils.parseWebhookPayload`.  Its argument is the outcome of the
external primitive `JSON.parse` on the delivered string/bytes (`none` models
a `SyntaxError`).  After a successful parse the source checks
`!parsed.id || !parsed.type || !parsed.data` (truthiness):
* a `null` parse result makes the field access itself throw a `TypeError`,
  caught and rewrapped as the parse failure with an empty
  `unexpected_payload`;
* a primitive parse result has `undefined` fields, hence fails the
  truthiness check and is reported as an invalid structure carrying the
  parsed value;
* an object must have truthy `id`, `type` and `data`.
-/
def parseWebhookPayload : Option JSVal → Except WebhookErr (List (String × JSVal))
  | none => .error (.validation failedParseMsg (.obj []))
  | some v =>
    match v with
    | .jnull => .error (.validation failedParseMsg (.obj []))
    | .undef => .error (.validation failedParseMsg (.obj []))
    | .obj fields =>
      if truthy (getField fields "id") && truthy (getField fields "type")
          && truthy (getField fields "data") then
        .ok fields
      else
        .error (.validation "Invalid webhook payload structure" (.obj fields))
    | other => .error (.validation "Invalid webhook payload structure" other)

/-- The three delivery forms accepted by `processWebhook`
(`string | Buffer | WebhookPayload`).  For the string and byte forms the
result of the external `JSON.parse` primitive (after UTF-8 decoding for
bytes) is supplied as `decoded`; `none` models malformed JSON. -/
inductive RawWebhookInput where
  | structured (fields : List (String × JSVal)) : RawWebhookInput
  | jsonString (decoded : Option JSVal) : RawWebhookInput
  | rawBytes (decoded : Option JSVal) : RawWebhookInput

/-- A caller-injected metadata validator (`ApiClient.metadataValidator`):
`parse` either returns the parsed value or throws, modelled by `Except`
with the thrown error message. -/
def MetadataValidatorFn : Type := JSVal → Except String JSVal

/-- The default metadata validator: the identity over the raw value. -/
def idValidator : MetadataValidatorFn := fun v => .ok v

/-- Step 1 of `processWebhook`: `typeof rawPayload === "object" && "id" in
rawPayload ? rawPayload : WebhookUtils.parseWebhookPayload(rawPayload)`.
An object without an `"id"` key is passed to `parseWebhookPayload`, whose
`JSON.parse` then throws on the string coercion `"[object Object]"` —
modelled as a failed decode. -/
def resolvePayload : RawWebhookInput → Except WebhookErr (List (String × JSVal))
  | .structured fields =>
    if hasKey fields "id" then .ok fields else parseWebhookPayload none
  | .jsonString decoded => parseWebhookPayload decoded
  | .rawBytes decoded => parseWebhookPayload decoded

/-- Model of `WebhookService.processWebhook(rawPayload, options)` from the webhook
service.  The first component is the returned payload or the thrown
`WebhookError`; the second component records the `this.emit(payload.type,
parsedPayload)` dispatches performed (at most one, on the success path), so
that "no listener is invoked" is expressible.

Control flow mirrors the source:
1. an object input with an `"id"` key is used as the payload directly; any
   other input goes through `parseWebhookPayload` (note that an *object*
   without an `"id"` key is passed to `JSON.parse`, which throws on the
   string coercion `"[object Object]"` — modelled as a failed decode);
2. `validateWebhookPayload`; a non-empty error list throws a
   `WebhookValidationError` carrying the payload;
3. `verifyWebhookSignature`; failure throws the plain
   `WebhookError "Webhook signature verification failed"`;
4. `metadataValidator.parse(payload.data)`; a throw is rewrapped as a
   `WebhookValidationError` whose `unexpected_payload` is the (original)
   payload; on success the payload with `data` replaced by the parsed value
   is emitted under `payload.type` and returned. -/
def processWebhook (validator : MetadataValidatorFn) (rawPayload : RawWebhookInput)
    (secret_token : String) :
    Except WebhookErr JSVal × List (JSVal × JSVal) :=
  match resolvePayload rawPayload with
  | .error e => (.error e, [])
  | .ok payload =>
    if (validateWebhookPayload payload).isEmpty then
      if verifyWebhookSignature payload secret_token then
        match validator (getField payload "data") with
        | .error msg => (.error (.validation msg (.obj payload)), [])
        | .ok parsedData =>
          (.ok (.obj (setDataField payload parsedData)),
           [(getField payload "type", .obj (setDataField payload parsedData))])
      else
        (.error (.base "Webhook signature verification failed"), [])
    else
      (.error (.validation
        ("Invalid webhook payload: "
          ++ String.intercalate ", " (validateWebhookPayload payload))
        (.obj payload)), [])

end Webhook

/-! ## Payment lifecycle (src/features/payment/utils.ts) -/

namespace Payment

/-- Enumeration `PaymentStatus` from the payment enums. -/
inductive PaymentStatus where
  | initiated | paid | authorized | failed | refunded | captured | voided | verified
deriving DecidableEq, BEq

/-- Model of `PaymentUtils.isPaymentFinal`: membership in the hard-coded list of
final statuses. -/
def isPaymentFinal (status : PaymentStatus) : Bool :=
  [PaymentStatus.paid, PaymentStatus.failed, PaymentStatus.refunded,
   PaymentStatus.captured, PaymentStatus.voided, PaymentStatus.verified].contains status

end Payment

/-! ## Amount formatter (src/features/payment/utils.ts, also duplicated in
invoice/utils.ts)

`formatAmount` computes `(amount / divisor).toFixed(divisor === 1 ? 0 : 2)`
and appends the currency code; `parseAmount` strips every character that is
not a digit or a dot, applies `parseFloat`, multiplies by the divisor and
applies `Math.round`.

The JS number operations are modelled in exact decimal arithmetic:
* `toFixed(k)` renders the nearest `k`-decimal value, rounding halves up
  (`roundHalfUp`).  For the divisor-100 and divisor-1 currencies the
  quotient has at most `k` decimals, so no rounding happens at all and the
  model is exact; for KWD (divisor 1000 but still 2 rendered decimals) the
  double-precision `toFixed` can differ from exact half-up rounding only on
  exact-half inputs (`amount ≡ 5 (mod 10)`), where the round trip fails
  under either rounding rule.
* `Math.round` rounds halves toward `+∞`, which on the non-negative amounts
  considered here is again `roundHalfUp`.
* `parseFloat` on the stripped string (digits and dots only) parses the
  longest prefix of the form `digits [ '.' digits ]`; no digits at all give
  `NaN`, modelled as `none`.
-/

namespace PaymentUtils

/-- The divisor lookup table shared by `formatAmount` and `parseAmount`. -/
def divisorsTable (currency : String) : Option Nat :=
  if currency = "KWD" then some 1000
  else if currency = "JPY" then some 1
  else if currency = "SAR" ∨ currency = "USD" ∨ currency = "EUR" then some 100
  else none

/-- Lookup `divisors[currency] ?? 100` (format side: no case normalization). -/
def formatDivisor (currency : String) : Nat :=
  (divisorsTable currency).getD 100

/-- JS `toUpperCase` (character-wise, as relevant for currency codes). -/
def jsToUpperCase (s : String) : String := String.mk (s.data.map Char.toUpper)

/-- Lookup `divisors[currency.toUpperCase()] || 100` (parse side).  All table
entries are non-zero, so `||` coincides with the default fallback. -/
def parseDivisor (currency : String) : Nat :=
  (divisorsTable (jsToUpperCase currency)).getD 100

/-- Round-to-nearest with halves up: `⌊n/d + 1/2⌋` for natural `n`, `d`. -/
def roundHalfUp (n d : Nat) : Nat := (2 * n + d) / (2 * d)

/-- Decimal digit characters of `n`, most significant first; fuel-indexed so
that the definition is structural (and hence computable by the kernel).  The
fuel `n + 1` always suffices since the recursion divides by 10. -/
def toDecimalAux : Nat → Nat → List Char
  | 0, _ => []
  | fuel + 1, n =>
    if n < 10 then [Nat.digitChar n]
    else toDecimalAux fuel (n / 10) ++ [Nat.digitChar (n % 10)]

/-- The standard decimal rendering of a natural number. -/
def toDecimal (n : Nat) : List Char := toDecimalAux (n + 1) n

/-- Two-digit zero-padded rendering, as produced by `toFixed(2)` for the
fractional part. -/
def pad2 (r : Nat) : List Char :=
  if r < 10 then '0' :: toDecimal r else toDecimal r

/-- Model of `PaymentUtils.formatAmount` (= `InvoiceUtils.formatAmount`). -/
def formatAmount (amount : Nat) (currency : String) : String :=
  let divisor := formatDivisor currency
  if divisor = 1 then
    String.mk (toDecimal amount) ++ " " ++ currency
  else
    let scaled := roundHalfUp (amount * 100) divisor
    String.mk (toDecimal (scaled / 100) ++ '.' :: pad2 (scaled % 100)) ++ " " ++ currency

/-- The character class kept by `replace(/[^\d.]/g, "")`. -/
def keepChar (c : Char) : Bool := c.isDigit || c = '.'

/-- Model of `formattedAmount.replace(/[^\d.]/g, "")`. -/
def stripNonDigitDot (s : String) : List Char := s.toList.filter keepChar

/-- The numeric value of a digit string (horner evaluation, as `parseFloat`
computes the integral and fractional digit groups). -/
def parseDigits (ds : List Char) : Nat :=
  ds.foldl (fun a c => 10 * a + (c.toNat - 48)) 0

/-- Model of `parseFloat` on a string containing only digits and dots: the longest
prefix `digits [ '.' digits ]`, returned as (integral part, fractional
part, number of fractional digits); `none` is `NaN` (no digits at all). -/
def parseFloatDecimal (cs : List Char) : Option (Nat × Nat × Nat) :=
  match cs.dropWhile (fun c => c.isDigit) with
  | '.' :: rest =>
    if (cs.takeWhile (fun c => c.isDigit)).isEmpty
        && (rest.takeWhile (fun c => c.isDigit)).isEmpty then none
    else some (parseDigits (cs.takeWhile (fun c => c.isDigit)),
               parseDigits (rest.takeWhile (fun c => c.isDigit)),
               (rest.takeWhile (fun c => c.isDigit)).length)
  | _ =>
    if (cs.takeWhile (fun c => c.isDigit)).isEmpty then none
    else some (parseDigits (cs.takeWhile (fun c => c.isDigit)), 0, 0)

/-- Model of `PaymentUtils.parseAmount` (= `InvoiceUtils.parseAmount`); `none` models
the `NaN` result of `parseFloat` on a digit-free string. -/
def parseAmount (formattedAmount : String) (currency : String) : Option Nat :=
  match parseFloatDecimal (stripNonDigitDot formattedAmount) with
  | none => none
  | some (i, f, k) =>
    some (roundHalfUp ((i * 10 ^ k + f) * parseDivisor currency) (10 ^ k))

end PaymentUtils

/-! ## Classifiers and concrete payloads for the webhook pipeline claims -/

namespace Webhook

/-- Classify a pipeline outcome as a `WebhookValidationError`. -/
def exceptIsValidation : Except WebhookErr JSVal → Bool
  | .error e => e.isValidation
  | .ok _ => false

/-- A decoded JSON value that lacks an `id` field: a failed decode, a
non-object, or an object without the key. -/
def decodedLacksId : Option JSVal → Bool
  | some (.obj fields) => !hasKey fields "id"
  | _ => true

/-- The inbound delivery lacks the `id` field, in each of the three
delivery forms. -/
def payloadLacksId : RawWebhookInput → Bool
  | .structured fields => !hasKey fields "id"
  | .jsonString decoded => decodedLacksId decoded
  | .rawBytes decoded => decodedLacksId decoded

/-- The metadata object used by the repository's own webhook service test
(`webhook.service.test.ts`, "Type safe data" suite). -/
def sampleMetadata : List (String × JSVal) :=
  [("service", JSVal.str "delivery"), ("date", JSVal.str "2030-01-01T00:00:00Z")]

/-- A payment snapshot as carried in `payload.data` by the repository's own
webhook service test (abridged to the fields the pipeline reads; note the
top level has no `service`/`date` keys — only `metadata` does). -/
def paymentDataFields : List (String × JSVal) :=
  [("id", JSVal.str "pay_123"), ("status", JSVal.str "paid"),
   ("amount", JSVal.num 5000), ("currency", JSVal.str "SAR"),
   ("captured", JSVal.num 5000), ("refunded", JSVal.num 0),
   ("metadata", JSVal.obj sampleMetadata)]

/-- The structurally valid webhook payload used throughout the repository's
webhook service tests (`secret_token: "secret"`). -/
def validPayload : List (String × JSVal) :=
  [("id", JSVal.str "event_123"), ("type", JSVal.str "payment_paid"),
   ("created_at", JSVal.str "2030-01-01T00:00:00Z"),
   ("secret_token", JSVal.str "secret"),
   ("account_name", JSVal.str "test_account"), ("live", JSVal.bool false),
   ("data", JSVal.obj paymentDataFields)]

/-- Payload `validPayload` with `secret_token: "wrong"` (the spec's rejection
scenario). -/
def wrongSecretPayload : List (String × JSVal) :=
  [("id", JSVal.str "event_123"), ("type", JSVal.str "payment_paid"),
   ("created_at", JSVal.str "2030-01-01T00:00:00Z"),
   ("secret_token", JSVal.str "wrong"),
   ("account_name", JSVal.str "test_account"), ("live", JSVal.bool false),
   ("data", JSVal.obj paymentDataFields)]

/-- Payload `validPayload` with an empty `secret_token`. -/
def emptySecretPayload : List (String × JSVal) :=
  [("id", JSVal.str "event_123"), ("type", JSVal.str "payment_paid"),
   ("created_at", JSVal.str "2030-01-01T00:00:00Z"),
   ("secret_token", JSVal.str ""),
   ("account_name", JSVal.str "test_account"), ("live", JSVal.bool false),
   ("data", JSVal.obj paymentDataFields)]

/-- Payload `validPayload` with an empty `account_name` (a required field holding
the empty string). -/
def emptyAccountPayload : List (String × JSVal) :=
  [("id", JSVal.str "event_123"), ("type", JSVal.str "payment_paid"),
   ("created_at", JSVal.str "2030-01-01T00:00:00Z"),
   ("secret_token", JSVal.str "secret"),
   ("account_name", JSVal.str ""), ("live", JSVal.bool false),
   ("data", JSVal.obj paymentDataFields)]

/-- Model of the `dataParser` injected by the repository's webhook service
test: `z.object(\x7b service: z.enum(["delivery", "pickup"]), date:
z.coerce.date() \x7d)`.  It accepts an object whose `service` is one of the
two enum values and whose `date` is a (date-coercible) string, and returns
the object restricted to exactly those two keys (zod strips unknown keys);
anything else is rejected. -/
def serviceDateParser : MetadataValidatorFn := fun v =>
  match v with
  | .obj fields =>
    match getField fields "service", getField fields "date" with
    | .str s, .str d =>
      if s = "delivery" ∨ s = "pickup" then
        .ok (.obj [("service", JSVal.str s), ("date", JSVal.str d)])
      else .error "Invalid option: expected one of delivery|pickup"
    | _, _ => .error "Invalid input: expected object with service and date"
  | _ => .error "Invalid input: expected object with service and date"

/-- A metadata validator whose `parse` always throws. -/
def metadataRejector : MetadataValidatorFn := fun _ => .error "Invalid metadata"

end Webhook

/-! ## A model of zod validation results and issues

The request validators call into zod schemas (`safeParse`), which produce
either parsed data or a list of issues, each carrying a path (field names
and array indices) and a message.  Version 4.0.5 of zod is modelled; the
default messages are taken from the repository's own test expectations.
-/

namespace Zod

/-- One segment of a zod issue path: an object field or an array index. -/
inductive PathSeg where
  | field (name : String) : PathSeg
  | index (i : Nat) : PathSeg

/-- String form of a path segment, as produced by `err.path.join(".")`. -/
def PathSeg.display : PathSeg → String
  | .field s => s
  | .index i => toString i

/-- Rendering of `err.path.join(".")`. -/
def joinPath (p : List PathSeg) : String :=
  String.intercalate "." (p.map PathSeg.display)

/-- A zod issue: path plus message. -/
structure Issue where
  path : List PathSeg
  message : String

/-- The error-message mapping shared by the single-request validators:
`err.path.length > 0 ? path.join(".") + ": " + msg : msg`. -/
def formatIssue (iss : Issue) : String :=
  (if iss.path.isEmpty then "" else joinPath iss.path ++ ": ") ++ iss.message

/-- Issues of the shared `amountSchema = z.number().int().positive().min(1)`.
Amounts are modelled as mathematical integers, so the `.int()` rule cannot
fire; `.positive()` and `.min(1)` each contribute their zod-v4 message
(both fire together on a non-positive amount, exactly as the repository's
invoice test expects). -/
def amountIssues (path : List PathSeg) (a : Int) : List Issue :=
  (if a > 0 then [] else [⟨path, "Too small: expected number to be >0"⟩])
    ++ (if a ≥ 1 then [] else [⟨path, "Too small: expected number to be >=1"⟩])

end Zod

/-- The structured result `\x7b success, data?, errors \x7d` returned by the
request validators (`shared/types/validation_result.ts`). -/
structure ValidationResult (α : Type) where
  success : Bool
  data : Option α
  errors : List String

/-- Modelled from the spec: the shared `Currency` enumeration
(`src/shared/types`; its defining file is absent from the snapshot).  The
spec and both divisor tables enumerate the supported currencies as SAR,
USD, EUR, KWD and JPY (uppercase codes). -/
def currencyValues : List String := ["SAR", "USD", "EUR", "KWD", "JPY"]

/-! ## Invoice request validation (src/features/invoice) -/

namespace Invoice

/-- Shape of `CreateInvoiceRequest` (invoice `types.ts`): required
`amount`/`currency`/`description`, optional URLs, expiry and metadata. -/
structure CreateInvoiceRequest where
  amount : Int
  currency : String
  description : String
  callback_url : Option String := none
  success_url : Option String := none
  back_url : Option String := none
  expired_at : Option Int := none
  metadata : Option (List (String × String)) := none

/-- Shape of `BulkCreateInvoiceRequest`. -/
structure BulkCreateInvoiceRequest where
  invoices : List CreateInvoiceRequest

/-- Issues of one optional URL field (`z.url(msg).optional()`).  The URL
primitive itself is external (WHATWG URL parsing), so the check is a
parameter `isUrl`. -/
def urlFieldIssues (isUrl : String → Bool) (fieldName msg : String) :
    Option String → List Zod.Issue
  | none => []
  | some u => if isUrl u then [] else [⟨[.field fieldName], msg⟩]

/-- Model of `CreateInvoiceSchema.safeParse`: the issues, in field
declaration order (`amount`, `currency`, `description`, `callback_url`,
`success_url`, `back_url`, `expired_at`, `metadata`).  `currency` is
transformed to upper case before the membership refinement (hence
case-insensitive); `metadata` is a string record and is valid by type.
`expired_at` is modelled as an epoch timestamp compared against the
current time `now` (the refinement `date > new Date()`). -/
def createInvoiceIssues (isUrl : String → Bool) (now : Int)
    (inv : CreateInvoiceRequest) : List Zod.Issue :=
  Zod.amountIssues [.field "amount"] inv.amount
    ++ (if currencyValues.contains (PaymentUtils.jsToUpperCase inv.currency) then []
        else [⟨[.field "currency"], "Invalid currency"⟩])
    ++ (if inv.description.length ≥ 1 then []
        else [⟨[.field "description"], "description is required"⟩])
    ++ (if inv.description.length ≤ 255 then []
        else [⟨[.field "description"], "description must be less than 255 characters"⟩])
    ++ urlFieldIssues isUrl "callback_url" "callback_url must be a valid URL" inv.callback_url
    ++ urlFieldIssues isUrl "success_url" "success_url must be a valid URL" inv.success_url
    ++ urlFieldIssues isUrl "back_url" "back_url must be a valid URL" inv.back_url
    ++ (match inv.expired_at with
        | none => []
        | some t => if t > now then []
            else [⟨[.field "expired_at"], "expired_at must be in the future"⟩])

/-- Transforms applied by `CreateInvoiceSchema` on success: currency upper
cased, description trimmed. -/
def parseInvoice (inv : CreateInvoiceRequest) : CreateInvoiceRequest :=
  { inv with
      currency := PaymentUtils.jsToUpperCase inv.currency,
      description := jsTrim inv.description }

/-- Model of `BulkCreateInvoiceSchema.safeParse` issues: the array length
rules (`min(1)`, `max(MAX_BULK_INVOICES)`), then each element validated
independently with its issues path-prefixed by `["invoices", index]`.  The
constant `BulkInvoiceLimit.MAX_BULK_INVOICES` is defined in the invoice
constants file, which is absent from the snapshot, so the limit is a
parameter `maxBulk` (the repository's test implies `maxBulk ≤ 100`). -/
def bulkIssues (isUrl : String → Bool) (now : Int) (maxBulk : Nat)
    (req : BulkCreateInvoiceRequest) : List Zod.Issue :=
  (if req.invoices.length ≥ 1 then []
    else [⟨[.field "invoices"], "at least one invoice is required"⟩])
    ++ (if req.invoices.length ≤ maxBulk then []
        else [⟨[.field "invoices"],
          "maximum of " ++ toString maxBulk ++ " invoices allowed per bulk request"⟩])
    ++ req.invoices.enum.flatMap (fun p =>
        (createInvoiceIssues isUrl now p.2).map (fun iss =>
          ⟨.field "invoices" :: .index p.1 :: iss.path, iss.message⟩))

/-- Model of `BulkCreateInvoiceSchema.safeParse`. -/
def bulkSafeParse (isUrl : String → Bool) (now : Int) (maxBulk : Nat)
    (req : BulkCreateInvoiceRequest) :
    Except (List Zod.Issue) BulkCreateInvoiceRequest :=
  match bulkIssues isUrl now maxBulk req with
  | [] => .ok ⟨req.invoices.map parseInvoice⟩
  | issues => .error issues

/-- Model of the error-message mapping inside
`InvoiceUtils.validateBulkCreateRequest`: an issue whose path starts with
`"invoices"` followed by a numeric index `i` is rendered as
`"Invoice (i+1): fieldPath: message"` (the field-path prefix is omitted
when the remaining path is empty); any other non-empty path is rendered
`"path.join(.): message"`; an empty path gives the bare message. -/
def formatBulkIssue (iss : Zod.Issue) : String :=
  match iss.path with
  | .field "invoices" :: .index i :: rest =>
    "Invoice " ++ toString (i + 1) ++ ": "
      ++ (if rest.isEmpty then "" else Zod.joinPath rest ++ ": ") ++ iss.message
  | [] => iss.message
  | p => Zod.joinPath p ++ ": " ++ iss.message

/-- Model of `InvoiceUtils.validateBulkCreateRequest`. -/
def validateBulkCreateRequest (isUrl : String → Bool) (now : Int) (maxBulk : Nat)
    (req : BulkCreateInvoiceRequest) : ValidationResult BulkCreateInvoiceRequest :=
  match bulkSafeParse isUrl now maxBulk req with
  | .ok data => ⟨true, some data, []⟩
  | .error issues => ⟨false, none, issues.map formatBulkIssue⟩

/-- First element of the repository's own bulk-indexing test: valid. -/
def validInvoiceElem : CreateInvoiceRequest :=
  { amount := 1000, currency := "USD", description := "Valid invoice" }

/-- Second element of the repository's own bulk-indexing test: invalid
amount, currency and description. -/
def invalidInvoiceElem : CreateInvoiceRequest :=
  { amount := 0, currency := "INVALID", description := "" }

/-- The two-element bulk request of the spec's bulk-indexing scenario. -/
def twoElemRequest : BulkCreateInvoiceRequest :=
  ⟨[validInvoiceElem, invalidInvoiceElem]⟩

end Invoice

/-! ## Payment creation request validation (src/features/payment) -/

namespace Payment

/-- The discriminated union `CreatePaymentSourceSchema` of the six payment
source variants, keyed by `type` (the tag is the constructor; `"3ds"` is
spelled `threeDS`). -/
inductive CreatePaymentSource where
  | creditcard (name : String) (number : String) (month year : Int) (cvc : String)
      (statement_descriptor : Option String) (threeDS manual save_card : Option Bool) :
      CreatePaymentSource
  | token (tok : String) (cvc : Option String) (statement_descriptor : Option String)
      (threeDS manual : Option Bool) : CreatePaymentSource
  | googlepay (tok : Option String) (manual save_card : Option Bool)
      (statement_descriptor : Option String) : CreatePaymentSource
  | applepay (tok : String) (manual save_card : Option Bool)
      (statement_descriptor : Option String) : CreatePaymentSource
  | samsungpay (tok : String) (manual save_card : Option Bool)
      (statement_descriptor : Option String) : CreatePaymentSource
  | stcpay (mobile : String) (cashier_id branch : Option String) : CreatePaymentSource

/-- Shape of `CreatePaymentRequest` (payment `types.ts`). -/
structure CreatePaymentRequest where
  given_id : Option String := none
  amount : Int
  currency : String
  description : String
  callback_url : String
  source : CreatePaymentSource
  metadata : Option (List (String × String)) := none
  apply_coupon : Option Bool := none

/-- Decimal-digit-only check used by the card number / CVC regexes. -/
def allDigits (s : String) : Bool := s.data.all (fun c => c.isDigit)

/-- Regex `^\d\x7b16,19\x7d$` ("Card number must be 16-19 digits"). -/
def cardNumberOk (s : String) : Bool :=
  allDigits s && decide (16 ≤ s.length) && decide (s.length ≤ 19)

/-- Regex `^\d\x7b3,4\x7d$` ("CVC must be 3-4 digits"). -/
def cvcOk (s : String) : Bool :=
  allDigits s && (decide (s.length = 3) || decide (s.length = 4))

/-- Core of `PaymentValidation.SAUDI_MOBILE_REGEX`: `5` followed by eight
digits. -/
def saudiCore (s : String) : Bool :=
  decide (s.length = 9) && jsStartsWith s "5" && allDigits s

/-- Model of the regex `^(0|(00|\+)?966)?(5\d\x7b8\x7d)$`: the core mobile
number with an optional `0`, `966`, `00966` or `+966` prefix. -/
def saudiMobileOk (s : String) : Bool :=
  saudiCore s
    || (jsStartsWith s "0" && saudiCore (String.mk (s.data.drop 1)))
    || (jsStartsWith s "966" && saudiCore (String.mk (s.data.drop 3)))
    || (jsStartsWith s "00966" && saudiCore (String.mk (s.data.drop 5)))
    || (jsStartsWith s "+966" && saudiCore (String.mk (s.data.drop 4)))

/-- Refinement `val.trim().split(" ").length >= 2` from the credit-card
name rule: `split(" ").length` is one more than the number of space
characters, so the refinement holds exactly when the trimmed name contains
a space. -/
def twoWordsOk (name : String) : Bool :=
  decide (2 ≤ 1 + (jsTrim name).data.countP (fun c => c = ' '))

/-- Issues of an optional bounded string (`z.string().max(255).optional()`,
used for `statement_descriptor`). -/
def optionalMaxLenIssues (fieldName : String) : Option String → List Zod.Issue
  | none => []
  | some s =>
    if s.length ≤ 255 then []
    else [⟨[.field "source", .field fieldName],
      "Too big: expected string to have <=255 characters"⟩]

/-- Issues of the selected source variant, with paths under `source.`.
Within the credit-card `name` rule the two baseline checks (`min`/`max`)
run first and the `.refine` (two words) only when they pass, as zod
effects do. -/
def sourceIssues (currentYear : Int) : CreatePaymentSource → List Zod.Issue
  | .creditcard name number month year cvc sd _ _ _ =>
    ((if name.length ≥ 1 then []
        else [⟨[.field "source", .field "name"], "Name is required"⟩])
      ++ (if name.length ≤ 255 then []
          else [⟨[.field "source", .field "name"],
            "Too big: expected string to have <=255 characters"⟩]))
      ++ (if name.length ≥ 1 && name.length ≤ 255 && !twoWordsOk name then
            [⟨[.field "source", .field "name"],
              "Card holder name must be at least two words"⟩]
          else [])
      ++ (if cardNumberOk number then []
          else [⟨[.field "source", .field "number"], "Card number must be 16-19 digits"⟩])
      ++ (if month ≥ 1 then []
          else [⟨[.field "source", .field "month"], "Month must be between 1 and 12"⟩])
      ++ (if month ≤ 12 then []
          else [⟨[.field "source", .field "month"], "Month must be between 1 and 12"⟩])
      ++ (if year ≥ currentYear then []
          else [⟨[.field "source", .field "year"], "Year cannot be in the past"⟩])
      ++ (if cvcOk cvc then []
          else [⟨[.field "source", .field "cvc"], "CVC must be 3-4 digits"⟩])
      ++ optionalMaxLenIssues "statement_descriptor" sd
  | .token tok cvc sd _ _ =>
    (if jsStartsWith tok "token_" then []
      else [⟨[.field "source", .field "token"], "Token must start with token_"⟩])
      ++ (match cvc with
          | none => []
          | some c => if cvcOk c then []
              else [⟨[.field "source", .field "cvc"], "CVC must be 3-4 digits"⟩])
      ++ optionalMaxLenIssues "statement_descriptor" sd
  | .googlepay _ _ _ sd => optionalMaxLenIssues "statement_descriptor" sd
  | .applepay _ _ _ sd => optionalMaxLenIssues "statement_descriptor" sd
  | .samsungpay _ _ _ sd => optionalMaxLenIssues "statement_descriptor" sd
  | .stcpay mobile _ _ =>
    if saudiMobileOk mobile then []
    else [⟨[.field "source", .field "mobile"], "Invalid Saudi mobile number format"⟩]

/-- Model of `CreatePaymentSchema.safeParse` issues, in field declaration
order: `given_id` (`z.uuid().optional()`, the UUID primitive is the
external parameter `isUuid`), `amount` (shared `amountSchema`), `currency`
(`currencySchema = z.enum(Currency).transform(toUpperCase)`, exact match
against the uppercase codes), `description` (`min(1)`/`max(255)`),
`callback_url` (`z.url()`, external parameter `isUrl`), `source`
(discriminated union), `metadata` and `apply_coupon` (valid by type). -/
def createPaymentIssues (isUuid isUrl : String → Bool) (currentYear : Int)
    (req : CreatePaymentRequest) : List Zod.Issue :=
  (match req.given_id with
    | none => []
    | some g => if isUuid g then []
        else [⟨[.field "given_id"], "ID must be a valid UUID"⟩])
    ++ Zod.amountIssues [.field "amount"] req.amount
    ++ (if currencyValues.contains req.currency then []
        else [⟨[.field "currency"], "Invalid option: expected one of the supported currencies"⟩])
    ++ (if req.description.length ≥ 1 then []
        else [⟨[.field "description"], "Description is required"⟩])
    ++ (if req.description.length ≤ 255 then []
        else [⟨[.field "description"],
          "Description must be less than 255 characters"⟩])
    ++ (if isUrl req.callback_url then []
        else [⟨[.field "callback_url"], "Callback URL must be a valid URL"⟩])
    ++ sourceIssues currentYear req.source

/-- Transform applied to the source on success: the credit-card holder
name is trimmed. -/
def parseSource : CreatePaymentSource → CreatePaymentSource
  | .creditcard name number month year cvc sd t m s =>
    .creditcard (jsTrim name) number month year cvc sd t m s
  | s => s

/-- Transforms applied by `CreatePaymentSchema` on success: currency upper
cased, description trimmed, source transformed. -/
def parseCreatePayment (req : CreatePaymentRequest) : CreatePaymentRequest :=
  { req with
      currency := PaymentUtils.jsToUpperCase req.currency,
      description := jsTrim req.description,
      source := parseSource req.source }

/-- Model of `CreatePaymentSchema.safeParse`. -/
def createPaymentSafeParse (isUuid isUrl : String → Bool) (currentYear : Int)
    (req : CreatePaymentRequest) : Except (List Zod.Issue) CreatePaymentRequest :=
  match createPaymentIssues isUuid isUrl currentYear req with
  | [] => .ok (parseCreatePayment req)
  | issues => .error issues

/-- The validated payload shape returned on success: the parsed request
with `metadata` replaced by the injected validator's output (`\x7b
...result.data, metadata \x7d`). -/
structure CreatePaymentData (T : Type) where
  given_id : Option String
  amount : Int
  currency : String
  description : String
  callback_url : String
  source : CreatePaymentSource
  metadata : Option T
  apply_coupon : Option Bool

/-- Assembly of the success payload from the parsed request and the
validated metadata. -/
def CreatePaymentData.ofParsed {T : Type} (d : CreatePaymentRequest)
    (meta : Option T) : CreatePaymentData T :=
  ⟨d.given_id, d.amount, d.currency, d.description, d.callback_url,
   d.source, meta, d.apply_coupon⟩

/-- Model of `PaymentUtils.validateCreatePaymentRequest`.  As in the
source, the injected metadata validator is applied to
`result.data?.metadata` (a present metadata record is truthy, even when
empty) BEFORE the `result.success` branch and OUTSIDE any try/catch, so a
throwing validator propagates out of the function — modelled by the outer
`Except String`:
* schema failure: structured result with `success := false` and the
  field-qualified messages, validator untouched (`result.data` is
  `undefined`);
* schema success, metadata absent: structured success result,
  `metadata := undefined`;
* schema success, metadata present: the validator runs; its exception, if
  any, escapes, otherwise the structured success result carries the
  validated metadata. -/
def validateCreatePaymentRequest {T : Type} (isUuid isUrl : String → Bool)
    (currentYear : Int) (validator : List (String × String) → Except String T)
    (req : CreatePaymentRequest) :
    Except String (ValidationResult (CreatePaymentData T)) :=
  match createPaymentSafeParse isUuid isUrl currentYear req with
  | .ok d =>
    match d.metadata with
    | some m =>
      match validator m with
      | .error e => .error e
      | .ok t => .ok ⟨true, some (CreatePaymentData.ofParsed d (some t)), []⟩
    | none => .ok ⟨true, some (CreatePaymentData.ofParsed d none), []⟩
  | .error issues => .ok ⟨false, none, issues.map Zod.formatIssue⟩

/-- Simplified executable model of zod's `z.url()` primitive (external
WHATWG URL parsing): accepts http(s) URLs.  Any faithful model accepts the
concrete URLs used below. -/
def zUrlModel (s : String) : Bool :=
  jsStartsWith s "https://" || jsStartsWith s "http://"

/-- Simplified executable model of zod's `z.uuid()` primitive; it is never
consulted in this development (requests below have no `given_id`). -/
def zUuidModel (s : String) : Bool := decide (s.length = 36)

/-- A conforming payment-creation request (STC-pay source, valid Saudi
mobile number, metadata present). -/
def stcRequest : CreatePaymentRequest :=
  { amount := 100, currency := "SAR", description := "Coffee order",
    callback_url := "https://example.com/callback",
    source := .stcpay "0512345678" none none,
    metadata := some [("order_id", "1000")] }

/-- A metadata validator whose `parse` throws on every input. -/
def throwingValidator : List (String × String) → Except String Unit :=
  fun _ => .error "metadata validator exploded"

end Payment

namespace PaymentUtils

/-! ### Decimal rendering / parsing lemmas -/

theorem toDecimalAux_lt_ten (fuel n : Nat) (hfuel : n < fuel) (h : n < 10) :
    toDecimalAux fuel n = [Nat.digitChar n] := by
  cases fuel with
  | zero => omega
  | succ m => simp [toDecimalAux, h]

theorem digitChar_isDigit (d : Nat) (h : d < 10) : (Nat.digitChar d).isDigit = true := by
  interval_cases d <;> decide

theorem digitChar_val (d : Nat) (h : d < 10) : (Nat.digitChar d).toNat - 48 = d := by
  interval_cases d <;> decide

theorem toDecimalAux_digits (fuel : Nat) : ∀ n, n < fuel →
    ∀ c ∈ toDecimalAux fuel n, c.isDigit = true := by
  induction fuel with
  | zero => intro n h; omega
  | succ m ih =>
    intro n hn c hc
    by_cases h10 : n < 10
    · simp [toDecimalAux, h10] at hc
      subst hc
      exact digitChar_isDigit n h10
    · simp only [toDecimalAux, if_neg h10, List.mem_append, List.mem_singleton] at hc
      rcases hc with hc | hc
      · exact ih (n / 10) (by omega) c hc
      · subst hc
        exact digitChar_isDigit _ (Nat.mod_lt _ (by omega))

theorem toDecimalAux_ne_nil (fuel n : Nat) (hn : n < fuel) :
    toDecimalAux fuel n ≠ [] := by
  cases fuel with
  | zero => omega
  | succ m =>
    by_cases h10 : n < 10 <;> simp [toDecimalAux, h10]

theorem parseDigits_shift (ds : List Char) : ∀ a b : Nat,
    ds.foldl (fun x c => 10 * x + (c.toNat - 48)) (a + b)
      = a * 10 ^ ds.length + ds.foldl (fun x c => 10 * x + (c.toNat - 48)) b := by
  induction ds with
  | nil => intro a b; simp
  | cons c rest ih =>
    intro a b
    simp only [List.foldl_cons, List.length_cons]
    have h : 10 * (a + b) + (c.toNat - 48) = 10 * a + (10 * b + (c.toNat - 48)) := by ring
    rw [h, ih (10 * a) (10 * b + (c.toNat - 48))]
    ring

theorem parseDigits_foldl (ds : List Char) (a : Nat) :
    ds.foldl (fun x c => 10 * x + (c.toNat - 48)) a
      = a * 10 ^ ds.length + parseDigits ds := by
  have h := parseDigits_shift ds a 0
  simpa [parseDigits] using h

theorem parseDigits_append (l₁ l₂ : List Char) :
    parseDigits (l₁ ++ l₂) = parseDigits l₁ * 10 ^ l₂.length + parseDigits l₂ := by
  unfold parseDigits
  rw [List.foldl_append]
  exact parseDigits_foldl l₂ _

theorem parseDigits_toDecimalAux (fuel : Nat) : ∀ n, n < fuel →
    parseDigits (toDecimalAux fuel n) = n := by
  induction fuel with
  | zero => intro n h; omega
  | succ m ih =>
    intro n hn
    by_cases h10 : n < 10
    · simp only [toDecimalAux, if_pos h10]
      unfold parseDigits
      simp [digitChar_val n h10]
    · simp only [toDecimalAux, if_neg h10]
      rw [parseDigits_append, ih (n / 10) (by omega)]
      have hmod : parseDigits [Nat.digitChar (n % 10)] = n % 10 := by
        unfold parseDigits
        simp [digitChar_val (n % 10) (Nat.mod_lt _ (by omega))]
      rw [hmod]
      simp only [List.length_singleton, pow_one]
      omega

theorem parseDigits_toDecimal (n : Nat) : parseDigits (toDecimal n) = n :=
  parseDigits_toDecimalAux (n + 1) n (Nat.lt_succ_self n)

theorem toDecimal_digits (n : Nat) : ∀ c ∈ toDecimal n, c.isDigit = true :=
  toDecimalAux_digits (n + 1) n (Nat.lt_succ_self n)

theorem toDecimal_ne_nil (n : Nat) : toDecimal n ≠ [] :=
  toDecimalAux_ne_nil (n + 1) n (Nat.lt_succ_self n)

theorem pad2_digits (r : Nat) : ∀ c ∈ pad2 r, c.isDigit = true := by
  intro c hc
  unfold pad2 at hc
  by_cases h : r < 10
  · simp only [if_pos h, List.mem_cons] at hc
    rcases hc with hc | hc
    · subst hc; decide
    · exact toDecimal_digits r c hc
  · simp only [if_neg h] at hc
    exact toDecimal_digits r c hc

theorem parseDigits_pad2 (r : Nat) : parseDigits (pad2 r) = r := by
  unfold pad2
  by_cases h : r < 10
  · simp only [if_pos h]
    have : parseDigits ('0' :: toDecimal r) = parseDigits (toDecimal r) := by
      unfold parseDigits
      simp
    rw [this, parseDigits_toDecimal]
  · simp only [if_neg h]
    exact parseDigits_toDecimal r

theorem pad2_length (r : Nat) (hr : r < 100) : (pad2 r).length = 2 := by
  unfold pad2
  by_cases h : r < 10
  · simp only [if_pos h, List.length_cons]
    rw [show toDecimal r = [Nat.digitChar r] from
      toDecimalAux_lt_ten (r + 1) r (Nat.lt_succ_self r) h]
    rfl
  · simp only [if_neg h]
    unfold toDecimal
    have h1 : ¬ r < 10 := h
    simp only [toDecimalAux, if_neg h1]
    rw [toDecimalAux_lt_ten r (r / 10) (by omega) (by omega)]
    rfl

/-! ### List scanning helpers used by the parse model -/

theorem filter_eq_nil_of_false {α : Type} (p : α → Bool) (l : List α)
    (h : ∀ a ∈ l, p a = false) : l.filter p = [] := by
  induction l with
  | nil => rfl
  | cons x t ih =>
    have hx := h x (List.mem_cons_self x t)
    simp [List.filter_cons, hx, ih (fun a ha => h a (List.mem_cons_of_mem x ha))]

theorem filter_eq_self_of_true {α : Type} (p : α → Bool) (l : List α)
    (h : ∀ a ∈ l, p a = true) : l.filter p = l := by
  induction l with
  | nil => rfl
  | cons x t ih =>
    have hx := h x (List.mem_cons_self x t)
    simp [List.filter_cons, hx, ih (fun a ha => h a (List.mem_cons_of_mem x ha))]

theorem takeWhile_eq_self_of_true {α : Type} (p : α → Bool) (l : List α)
    (h : ∀ a ∈ l, p a = true) : l.takeWhile p = l := by
  induction l with
  | nil => rfl
  | cons x t ih =>
    have hx := h x (List.mem_cons_self x t)
    simp [List.takeWhile_cons, hx, ih (fun a ha => h a (List.mem_cons_of_mem x ha))]

theorem dropWhile_eq_nil_of_true {α : Type} (p : α → Bool) (l : List α)
    (h : ∀ a ∈ l, p a = true) : l.dropWhile p = [] := by
  induction l with
  | nil => rfl
  | cons x t ih =>
    have hx := h x (List.mem_cons_self x t)
    simp [List.dropWhile_cons, hx, ih (fun a ha => h a (List.mem_cons_of_mem x ha))]

theorem takeWhile_append_stop {α : Type} (p : α → Bool) (l₁ : List α) (x : α) (l₂ : List α)
    (h₁ : ∀ a ∈ l₁, p a = true) (hx : p x = false) :
    (l₁ ++ x :: l₂).takeWhile p = l₁ := by
  induction l₁ with
  | nil => simp [List.takeWhile_cons, hx]
  | cons y t ih =>
    have hy := h₁ y (List.mem_cons_self y t)
    simp [List.takeWhile_cons, hy, ih (fun a ha => h₁ a (List.mem_cons_of_mem y ha))]

theorem dropWhile_append_stop {α : Type} (p : α → Bool) (l₁ : List α) (x : α) (l₂ : List α)
    (h₁ : ∀ a ∈ l₁, p a = true) (hx : p x = false) :
    (l₁ ++ x :: l₂).dropWhile p = x :: l₂ := by
  induction l₁ with
  | nil => simp [List.dropWhile_cons, hx]
  | cons y t ih =>
    have hy := h₁ y (List.mem_cons_self y t)
    simp [List.dropWhile_cons, hy, ih (fun a ha => h₁ a (List.mem_cons_of_mem y ha))]

theorem parseFloatDecimal_digits_only (ds : List Char) (hne : ds ≠ [])
    (h : ∀ c ∈ ds, c.isDigit = true) :
    parseFloatDecimal ds = some (parseDigits ds, 0, 0) := by
  unfold parseFloatDecimal
  rw [dropWhile_eq_nil_of_true _ ds h, takeWhile_eq_self_of_true _ ds h]
  cases ds with
  | nil => exact absurd rfl hne
  | cons c t => rfl

theorem parseFloatDecimal_split (ds₁ ds₂ : List Char)
    (h₁ : ∀ c ∈ ds₁, c.isDigit = true) (h₂ : ∀ c ∈ ds₂, c.isDigit = true)
    (hne : ds₁ ≠ []) :
    parseFloatDecimal (ds₁ ++ '.' :: ds₂)
      = some (parseDigits ds₁, parseDigits ds₂, ds₂.length) := by
  unfold parseFloatDecimal
  rw [dropWhile_append_stop _ ds₁ '.' ds₂ h₁ (by decide),
      takeWhile_append_stop _ ds₁ '.' ds₂ h₁ (by decide)]
  simp only [takeWhile_eq_self_of_true _ ds₂ h₂]
  cases ds₁ with
  | nil => exact absurd rfl hne
  | cons c t => rfl

/-! ### Round-trip lemmas -/

theorem keepChar_of_digit (c : Char) (h : c.isDigit = true) : keepChar c = true := by
  simp [keepChar, h]

theorem roundHalfUp_mul_self (a d : Nat) (hd : 0 < d) : roundHalfUp (a * d) d = a := by
  unfold roundHalfUp
  have h1 : 2 * (a * d) + d = d * (2 * a + 1) := by ring
  have h2 : 2 * d = d * 2 := by ring
  rw [h1, h2, Nat.mul_div_mul_left _ _ hd]
  omega

theorem strip_format (l : List Char) (c : String) (hl : ∀ ch ∈ l, keepChar ch = true)
    (hc : ∀ ch ∈ c.data, keepChar ch = false) :
    stripNonDigitDot (String.mk l ++ " " ++ c) = l := by
  unfold stripNonDigitDot
  have hdata : (String.mk l ++ " " ++ c).toList = l ++ ' ' :: c.data := by
    simp [String.toList, String.data_append]
  rw [hdata, List.filter_append, filter_eq_self_of_true _ l hl]
  simp only [List.filter_cons]
  have hsp : keepChar ' ' = false := by decide
  rw [hsp]
  simp [filter_eq_nil_of_false _ c.data hc]

theorem roundtrip_div100 (a : Nat) (c : String)
    (hchars : ∀ ch ∈ c.data, keepChar ch = false)
    (hfd : formatDivisor c = 100) (hpd : parseDivisor c = 100) :
    parseAmount (formatAmount a c) c = some a := by
  have hfmt : formatAmount a c
      = String.mk (toDecimal (a / 100) ++ '.' :: pad2 (a % 100)) ++ " " ++ c := by
    unfold formatAmount
    rw [hfd]
    norm_num
    rw [roundHalfUp_mul_self a 100 (by omega)]
  have hkeep : ∀ ch ∈ toDecimal (a / 100) ++ '.' :: pad2 (a % 100), keepChar ch = true := by
    intro ch hch
    rcases List.mem_append.mp hch with hch | hch
    · exact keepChar_of_digit ch (toDecimal_digits _ ch hch)
    · rcases List.mem_cons.mp hch with hch | hch
      · subst hch; decide
      · exact keepChar_of_digit ch (pad2_digits _ ch hch)
  unfold parseAmount
  rw [hfmt, strip_format _ c hkeep hchars,
      parseFloatDecimal_split _ _ (toDecimal_digits _) (pad2_digits _) (toDecimal_ne_nil _),
      parseDigits_toDecimal, parseDigits_pad2, pad2_length _ (Nat.mod_lt _ (by omega))]
  show some (roundHalfUp ((a / 100 * 10 ^ 2 + a % 100) * parseDivisor c) (10 ^ 2)) = some a
  rw [hpd]
  have h100 : (10:Nat) ^ 2 = 100 := by norm_num
  rw [h100]
  have harith : (a / 100 * 100 + a % 100) * 100 = a * 100 := by omega
  rw [harith, roundHalfUp_mul_self a 100 (by omega)]

theorem roundtrip_div1 (a : Nat) (c : String)
    (hchars : ∀ ch ∈ c.data, keepChar ch = false)
    (hfd : formatDivisor c = 1) (hpd : parseDivisor c = 1) :
    parseAmount (formatAmount a c) c = some a := by
  have hfmt : formatAmount a c = String.mk (toDecimal a) ++ " " ++ c := by
    unfold formatAmount
    rw [hfd]
    norm_num
  have hkeep : ∀ ch ∈ toDecimal a, keepChar ch = true :=
    fun ch hch => keepChar_of_digit ch (toDecimal_digits _ ch hch)
  unfold parseAmount
  rw [hfmt, strip_format _ c hkeep hchars,
      parseFloatDecimal_digits_only _ (toDecimal_ne_nil _) (toDecimal_digits _),
      parseDigits_toDecimal]
  show some (roundHalfUp ((a * 10 ^ 0 + 0) * parseDivisor c) (10 ^ 0)) = some a
  rw [hpd]
  have h0 : (10:Nat) ^ 0 = 1 := by norm_num
  rw [h0]
  have h : (a * 1 + 0) * 1 = a * 1 := by ring
  rw [h, roundHalfUp_mul_self a 1 (by omega)]

theorem kwd_roundtrip_value (a : Nat) :
    parseAmount (formatAmount a "KWD") "KWD" = some (10 * ((a + 5) / 10)) := by
  have hscaled : roundHalfUp (a * 100) 1000 = (a + 5) / 10 := by
    unfold roundHalfUp
    have h1 : 2 * (a * 100) + 1000 = 200 * (a + 5) := by ring
    have h2 : 2 * 1000 = 200 * 10 := by norm_num
    rw [h1, h2, Nat.mul_div_mul_left _ _ (by omega : (0:Nat) < 200)]
  have hfd : formatDivisor "KWD" = 1000 := rfl
  have hfmt : formatAmount a "KWD"
      = String.mk (toDecimal ((a + 5) / 10 / 100) ++ '.' :: pad2 ((a + 5) / 10 % 100))
          ++ " " ++ "KWD" := by
    unfold formatAmount
    rw [hfd]
    norm_num
    rw [hscaled]
  have hkeep : ∀ ch ∈ toDecimal ((a + 5) / 10 / 100) ++ '.' :: pad2 ((a + 5) / 10 % 100),
      keepChar ch = true := by
    intro ch hch
    rcases List.mem_append.mp hch with hch | hch
    · exact keepChar_of_digit ch (toDecimal_digits _ ch hch)
    · rcases List.mem_cons.mp hch with hch | hch
      · subst hch; decide
      · exact keepChar_of_digit ch (pad2_digits _ ch hch)
  have hchars : ∀ ch ∈ ("KWD" : String).data, keepChar ch = false := by decide
  unfold parseAmount
  rw [hfmt, strip_format _ "KWD" hkeep hchars,
      parseFloatDecimal_split _ _ (toDecimal_digits _) (pad2_digits _) (toDecimal_ne_nil _),
      parseDigits_toDecimal, parseDigits_pad2, pad2_length _ (Nat.mod_lt _ (by omega))]
  show some (roundHalfUp (((a + 5) / 10 / 100 * 10 ^ 2 + (a + 5) / 10 % 100)
        * parseDivisor "KWD") (10 ^ 2)) = some (10 * ((a + 5) / 10))
  have hpd : parseDivisor "KWD" = 1000 := by decide
  rw [hpd]
  have h100 : (10:Nat) ^ 2 = 100 := by norm_num
  rw [h100]
  have harith : ((a + 5) / 10 / 100 * 100 + (a + 5) / 10 % 100) * 1000
      = ((a + 5) / 10) * 1000 := by omega
  rw [harith]
  unfold roundHalfUp
  have hfin : (2 * ((a + 5) / 10 * 1000) + 100) / (2 * 100) = 10 * ((a + 5) / 10) := by
    omega
  rw [hfin]

end PaymentUtils

/-! ## Webhook pipeline lemmas -/

namespace Webhook

theorem getField_eq_undef_of_not_hasKey (fields : List (String × JSVal)) (key : String)
    (h : hasKey fields key = false) : getField fields key = .undef := by
  induction fields with
  | nil => rfl
  | cons kv rest ih =>
    unfold hasKey at h
    simp only [List.any_cons, Bool.or_eq_false_iff] at h
    obtain ⟨h1, h2⟩ := h
    unfold getField
    rw [if_neg]
    · exact ih (by unfold hasKey; exact h2)
    · simpa using h1

theorem processWebhook_structured_valid (fields : List (String × JSVal)) (secret : String)
    (v : MetadataValidatorFn) (hid : hasKey fields "id" = true)
    (hvalid : validateWebhookPayload fields = []) :
    processWebhook v (.structured fields) secret
      = if verifyWebhookSignature fields secret then
          match v (getField fields "data") with
          | .error msg => (.error (.validation msg (.obj fields)), [])
          | .ok d => (.ok (.obj (setDataField fields d)),
                      [(getField fields "type", .obj (setDataField fields d))])
        else (.error (.base "Webhook signature verification failed"), []) := by
  unfold processWebhook resolvePayload
  simp [hid, hvalid]

theorem mem_validateRequired (fields : List (String × JSVal)) (required : List String)
    (f : String) (hf : f ∈ required)
    (hmiss : requiredMissing (getField fields f) = true) :
    (f ++ " is required") ∈ validateRequired fields required := by
  unfold validateRequired
  exact List.mem_map_of_mem _ (List.mem_filter.mpr ⟨hf, hmiss⟩)

theorem parseWebhookPayload_obj_no_id (fields : List (String × JSVal))
    (hid : hasKey fields "id" = false) :
    parseWebhookPayload (some (.obj fields))
      = .error (.validation "Invalid webhook payload structure" (.obj fields)) := by
  simp only [parseWebhookPayload]
  rw [getField_eq_undef_of_not_hasKey fields "id" hid]
  rfl

theorem resolvePayload_error_of_lacksId (raw : RawWebhookInput)
    (h : payloadLacksId raw = true) :
    ∃ m p, resolvePayload raw = .error (.validation m p) := by
  cases raw with
  | structured fields =>
    have hid : hasKey fields "id" = false := by simpa [payloadLacksId] using h
    refine ⟨failedParseMsg, .obj [], ?_⟩
    show (if hasKey fields "id" = true then Except.ok fields
          else parseWebhookPayload none) = _
    rw [hid]
    rfl
  | jsonString decoded =>
    cases decoded with
    | none => exact ⟨failedParseMsg, .obj [], rfl⟩
    | some v =>
      cases v with
      | undef => exact ⟨failedParseMsg, .obj [], rfl⟩
      | jnull => exact ⟨failedParseMsg, .obj [], rfl⟩
      | bool b => exact ⟨"Invalid webhook payload structure", .bool b, rfl⟩
      | num n => exact ⟨"Invalid webhook payload structure", .num n, rfl⟩
      | str s => exact ⟨"Invalid webhook payload structure", .str s, rfl⟩
      | obj fields =>
        have hid : hasKey fields "id" = false := by
          simpa [payloadLacksId, decodedLacksId] using h
        refine ⟨"Invalid webhook payload structure", .obj fields, ?_⟩
        show parseWebhookPayload (some (.obj fields)) = _
        exact parseWebhookPayload_obj_no_id fields hid
  | rawBytes decoded =>
    cases decoded with
    | none => exact ⟨failedParseMsg, .obj [], rfl⟩
    | some v =>
      cases v with
      | undef => exact ⟨failedParseMsg, .obj [], rfl⟩
      | jnull => exact ⟨failedParseMsg, .obj [], rfl⟩
      | bool b => exact ⟨"Invalid webhook payload structure", .bool b, rfl⟩
      | num n => exact ⟨"Invalid webhook payload structure", .num n, rfl⟩
      | str s => exact ⟨"Invalid webhook payload structure", .str s, rfl⟩
      | obj fields =>
        have hid : hasKey fields "id" = false := by
          simpa [payloadLacksId, decodedLacksId] using h
        refine ⟨"Invalid webhook payload structure", .obj fields, ?_⟩
        show parseWebhookPayload (some (.obj fields)) = _
        exact parseWebhookPayload_obj_no_id fields hid

end Webhook

/-! ## Claim theorems -/

/-- C9: for every defined payment status, `isPaymentFinal(status)` is `true`
exactly on `paid`, `failed`, `refunded`, `captured`, `voided` and
`verified`, and `false` on `initiated` and `authorized`. -/
theorem C9_isPaymentFinal_exactly_six :
    (∀ s : Payment.PaymentStatus,
        Payment.isPaymentFinal s = true ↔
          (s = .paid ∨ s = .failed ∨ s = .refunded ∨ s = .captured
            ∨ s = .voided ∨ s = .verified)) ∧
    Payment.isPaymentFinal .initiated = false ∧
    Payment.isPaymentFinal .authorized = false := by
  refine ⟨fun s => ?_, rfl, rfl⟩
  cases s <;> decide

/-- C2 (counterexample): the round-trip law fails for KWD.  `formatAmount`
renders only two decimals while the KWD divisor is 1000, so
`formatAmount 1 "KWD"` is `"0.00 KWD"` and parsing it back yields `0`, not
`1`. -/
theorem C2_kwd_roundtrip_fails :
    PaymentUtils.formatAmount 1 "KWD" = "0.00 KWD" ∧
    PaymentUtils.parseAmount (PaymentUtils.formatAmount 1 "KWD") "KWD" = some 0 ∧
    some 0 ≠ some 1 := by
  refine ⟨by decide, by decide, by decide⟩

/-- C2 (amended): `parseAmount(formatAmount(a, c), c) = a` holds for every
integer amount `a ≥ 1` when `c` is one of SAR, USD, EUR (divisor 100, two
rendered decimals) or JPY (divisor 1, zero rendered decimals); for KWD
(divisor 1000 but still two rendered decimals) the round trip holds exactly
when `a` is a multiple of 10. -/
theorem C2_amount_roundtrip_amended :
    (∀ a : Nat, 1 ≤ a → ∀ c ∈ (["SAR", "USD", "EUR", "JPY"] : List String),
        PaymentUtils.parseAmount (PaymentUtils.formatAmount a c) c = some a) ∧
    (∀ a : Nat, 1 ≤ a →
        (PaymentUtils.parseAmount (PaymentUtils.formatAmount a "KWD") "KWD" = some a
          ↔ a % 10 = 0)) := by
  constructor
  · intro a _ c hc
    fin_cases hc
    · exact PaymentUtils.roundtrip_div100 a "SAR" (by decide) (by decide) (by decide)
    · exact PaymentUtils.roundtrip_div100 a "USD" (by decide) (by decide) (by decide)
    · exact PaymentUtils.roundtrip_div100 a "EUR" (by decide) (by decide) (by decide)
    · exact PaymentUtils.roundtrip_div1 a "JPY" (by decide) (by decide) (by decide)
  · intro a _
    rw [PaymentUtils.kwd_roundtrip_value]
    constructor
    · intro h
      have h2 : 10 * ((a + 5) / 10) = a := Option.some.inj h
      omega
    · intro h
      have h2 : 10 * ((a + 5) / 10) = a := by omega
      rw [h2]

/-- Witness for C2 at concrete inputs: `a = 5000`, `c = "SAR"` and
`a = 20`, `c = "KWD"`. -/
theorem C2_amount_roundtrip_witness :
    PaymentUtils.parseAmount (PaymentUtils.formatAmount 5000 "SAR") "SAR" = some 5000 ∧
    (PaymentUtils.parseAmount (PaymentUtils.formatAmount 20 "KWD") "KWD" = some 20
      ↔ 20 % 10 = 0) :=
  ⟨C2_amount_roundtrip_amended.1 5000 (by decide) "SAR" (by decide),
   C2_amount_roundtrip_amended.2 20 (by decide)⟩

/-- C1 (counterexample): the pipeline does NOT require the secrets to be
non-empty.  With both the expected secret and `payload.secret_token` equal
to the empty string, `verifyWebhookSignature` returns `true` and
`processWebhook` accepts and dispatches the payload instead of rejecting
with an authentication failure. -/
theorem C1_empty_secrets_accepted :
    Webhook.verifyWebhookSignature Webhook.emptySecretPayload "" = true ∧
    (Webhook.processWebhook Webhook.idValidator
        (.structured Webhook.emptySecretPayload) "").1
      = .ok (.obj Webhook.emptySecretPayload) ∧
    (Webhook.processWebhook Webhook.idValidator
        (.structured Webhook.emptySecretPayload) "").2
      = [(JSVal.str "payment_paid", JSVal.obj Webhook.emptySecretPayload)] := by
  refine ⟨rfl, rfl, rfl⟩

/-- C1 (amended): authentication is plain string equality.
`verifyWebhookSignature` accepts iff the expected secret strictly equals
`payload.secret_token` (with no non-emptiness requirement: two empty
strings are accepted), and on a structurally valid payload the pipeline
rejects with the authentication-classified `WebhookError` exactly when that
equality fails. -/
theorem C1_webhook_auth_equality_amended :
    (∀ (fields : List (String × JSVal)) (secret : String),
        Webhook.verifyWebhookSignature fields secret = true ↔
          getField fields "secret_token" = JSVal.str secret) ∧
    (∀ (fields : List (String × JSVal)) (secret : String)
        (v : Webhook.MetadataValidatorFn),
        hasKey fields "id" = true →
        Webhook.validateWebhookPayload fields = [] →
        ((Webhook.processWebhook v (.structured fields) secret).1
            = .error (.base "Webhook signature verification failed")
          ↔ Webhook.verifyWebhookSignature fields secret = false)) := by
  constructor
  · intro fields secret
    unfold Webhook.verifyWebhookSignature
    cases h : getField fields "secret_token" with
    | str s =>
      simp only [decide_eq_true_eq, JSVal.str.injEq]
      exact ⟨fun h2 => h2.symm, fun h2 => h2.symm⟩
    | undef => simp
    | jnull => simp
    | bool b => simp
    | num n => simp
    | obj o => simp
  · intro fields secret v hid hvalid
    rw [Webhook.processWebhook_structured_valid fields secret v hid hvalid]
    cases hv : Webhook.verifyWebhookSignature fields secret with
    | true =>
      simp only [if_true]
      cases hval : v (getField fields "data") with
      | error m => simp
      | ok d => simp
    | false => simp

/-- Witness for C1 at a concrete structurally valid payload
(`secret_token: "secret"`) checked against the expected secret `"other"`. -/
theorem C1_webhook_auth_equality_witness :
    (Webhook.processWebhook Webhook.idValidator
        (.structured Webhook.validPayload) "other").1
      = .error (.base "Webhook signature verification failed")
    ↔ Webhook.verifyWebhookSignature Webhook.validPayload "other" = false :=
  C1_webhook_auth_equality_amended.2 Webhook.validPayload "other"
    Webhook.idValidator rfl rfl

/-- C5: on a structurally valid payload whose `secret_token` differs from
the expected secret, `processWebhook` throws the authentication-classified
`WebhookError`, no listener is invoked (the emission list is empty), and
the injected metadata validator is never consulted (the outcome does not
depend on it). -/
theorem C5_wrong_secret_rejected_before_metadata :
    ∀ (fields : List (String × JSVal)) (secret : String)
      (v₁ v₂ : Webhook.MetadataValidatorFn),
      hasKey fields "id" = true →
      Webhook.validateWebhookPayload fields = [] →
      Webhook.verifyWebhookSignature fields secret = false →
      Webhook.processWebhook v₁ (.structured fields) secret
          = (.error (.base "Webhook signature verification failed"), [])
        ∧ Webhook.processWebhook v₁ (.structured fields) secret
          = Webhook.processWebhook v₂ (.structured fields) secret := by
  intro fields secret v₁ v₂ hid hvalid hver
  have h₁ : Webhook.processWebhook v₁ (.structured fields) secret
      = (.error (.base "Webhook signature verification failed"), []) := by
    rw [Webhook.processWebhook_structured_valid fields secret v₁ hid hvalid, hver]
    simp
  have h₂ : Webhook.processWebhook v₂ (.structured fields) secret
      = (.error (.base "Webhook signature verification failed"), []) := by
    rw [Webhook.processWebhook_structured_valid fields secret v₂ hid hvalid, hver]
    simp
  exact ⟨h₁, h₁.trans h₂.symm⟩

/-- Witness for C5: the spec's scenario, `secret_token: "wrong"` against
expected `"correct"`, with the identity validator and an always-throwing
validator. -/
theorem C5_wrong_secret_rejected_witness :
    Webhook.processWebhook Webhook.idValidator
        (.structured Webhook.wrongSecretPayload) "correct"
      = (.error (.base "Webhook signature verification failed"), [])
    ∧ Webhook.processWebhook Webhook.idValidator
        (.structured Webhook.wrongSecretPayload) "correct"
      = Webhook.processWebhook Webhook.metadataRejector
          (.structured Webhook.wrongSecretPayload) "correct" :=
  C5_wrong_secret_rejected_before_metadata Webhook.wrongSecretPayload "correct"
    Webhook.idValidator Webhook.metadataRejector rfl rfl rfl

/-- C6: a delivery whose payload lacks the `id` field — whether delivered as
an already-structured object, a JSON string, or raw bytes — fails with a
structural/parse `WebhookValidationError`, and the authentication step is
never reached: the outcome does not depend on the expected secret (nor on
the metadata validator). -/
theorem C6_missing_id_never_reaches_auth :
    ∀ (raw : Webhook.RawWebhookInput) (s₁ s₂ : String)
      (v₁ v₂ : Webhook.MetadataValidatorFn),
      Webhook.payloadLacksId raw = true →
      Webhook.exceptIsValidation (Webhook.processWebhook v₁ raw s₁).1 = true
        ∧ Webhook.processWebhook v₁ raw s₁ = Webhook.processWebhook v₂ raw s₂ := by
  intro raw s₁ s₂ v₁ v₂ h
  obtain ⟨m, p, hres⟩ := Webhook.resolvePayload_error_of_lacksId raw h
  constructor
  · unfold Webhook.processWebhook
    rw [hres]
    rfl
  · unfold Webhook.processWebhook
    rw [hres]

/-- Witness for C6: a JSON-string delivery decoding to an object without an
`id` key, under two different secrets and two different validators. -/
theorem C6_missing_id_witness :
    Webhook.exceptIsValidation
        (Webhook.processWebhook Webhook.idValidator
          (.jsonString (some (.obj [("type", JSVal.str "payment_paid")]))) "a").1 = true
      ∧ Webhook.processWebhook Webhook.idValidator
          (.jsonString (some (.obj [("type", JSVal.str "payment_paid")]))) "a"
        = Webhook.processWebhook Webhook.metadataRejector
            (.jsonString (some (.obj [("type", JSVal.str "payment_paid")]))) "b" :=
  C6_missing_id_never_reaches_auth
    (.jsonString (some (.obj [("type", JSVal.str "payment_paid")]))) "a" "b"
    Webhook.idValidator Webhook.metadataRejector rfl

/-- C7: on a structurally valid, authenticated payload whose injected
metadata validator throws, `processWebhook` throws a
`WebhookValidationError` carrying the validator's message and, as
`unexpected_payload`, exactly the original pre-validation payload object;
no listener is invoked. -/
theorem C7_metadata_error_carries_original_payload :
    ∀ (fields : List (String × JSVal)) (secret : String)
      (v : Webhook.MetadataValidatorFn) (msg : String),
      hasKey fields "id" = true →
      Webhook.validateWebhookPayload fields = [] →
      Webhook.verifyWebhookSignature fields secret = true →
      v (getField fields "data") = .error msg →
      Webhook.processWebhook v (.structured fields) secret
        = (.error (.validation msg (.obj fields)), []) := by
  intro fields secret v msg hid hvalid hver hthrow
  rw [Webhook.processWebhook_structured_valid fields secret v hid hvalid, hver, hthrow]
  simp

/-- Witness for C7: the valid test payload with an always-throwing
validator. -/
theorem C7_metadata_error_witness :
    Webhook.processWebhook Webhook.metadataRejector
        (.structured Webhook.validPayload) "secret"
      = (.error (.validation "Invalid metadata" (.obj Webhook.validPayload)), []) :=
  C7_metadata_error_carries_original_payload Webhook.validPayload "secret"
    Webhook.metadataRejector "Invalid metadata" rfl rfl rfl rfl

/-- C10: webhook structural validation treats `undefined`, `null` and the
empty string alike as missing: whenever one of the five required top-level
fields has such a value, `validateWebhookPayload` reports
`"<field> is required"` (so its error list is non-empty), and
`processWebhook` consequently rejects the payload with a
`WebhookValidationError`, for every secret and every validator. -/
theorem C10_empty_required_field_rejected :
    ∀ (fields : List (String × JSVal)) (f : String),
      f ∈ (["id", "type", "created_at", "account_name", "data"] : List String) →
      Webhook.requiredMissing (getField fields f) = true →
      (f ++ " is required") ∈ Webhook.validateWebhookPayload fields
        ∧ Webhook.validateWebhookPayload fields ≠ []
        ∧ ∀ (v : Webhook.MetadataValidatorFn) (secret : String),
            Webhook.exceptIsValidation
              (Webhook.processWebhook v (.structured fields) secret).1 = true := by
  intro fields f hf hmiss
  have hmem : (f ++ " is required") ∈ Webhook.validateWebhookPayload fields := by
    unfold Webhook.validateWebhookPayload
    exact List.mem_append_left _
      (List.mem_append_left _ (Webhook.mem_validateRequired fields _ f hf hmiss))
  have hne : Webhook.validateWebhookPayload fields ≠ [] := by
    intro heq
    rw [heq] at hmem
    exact absurd hmem (List.not_mem_nil _)
  refine ⟨hmem, hne, ?_⟩
  intro v secret
  cases hid : hasKey fields "id" with
  | false =>
    have hres : Webhook.resolvePayload (.structured fields)
        = Webhook.parseWebhookPayload none := by
      show (if hasKey fields "id" = true then Except.ok fields
            else Webhook.parseWebhookPayload none)
          = Webhook.parseWebhookPayload none
      rw [hid]
      rfl
    unfold Webhook.processWebhook
    rw [hres]
    rfl
  | true =>
    have hres : Webhook.resolvePayload (.structured fields) = .ok fields := by
      show (if hasKey fields "id" = true then Except.ok fields
            else Webhook.parseWebhookPayload none)
          = Except.ok fields
      rw [hid]
      rfl
    have hempty : (Webhook.validateWebhookPayload fields).isEmpty = false := by
      cases hval : Webhook.validateWebhookPayload fields with
      | nil => exact absurd hval hne
      | cons a t => rfl
    unfold Webhook.processWebhook
    rw [hres]
    simp [hempty, Webhook.exceptIsValidation, Webhook.WebhookErr.isValidation]

/-- Witness for C10: the valid test payload with `account_name` set to the
empty string. -/
theorem C10_empty_required_field_witness :
    ("account_name" ++ " is required")
        ∈ Webhook.validateWebhookPayload Webhook.emptyAccountPayload
      ∧ Webhook.validateWebhookPayload Webhook.emptyAccountPayload ≠ []
      ∧ ∀ (v : Webhook.MetadataValidatorFn) (secret : String),
          Webhook.exceptIsValidation
            (Webhook.processWebhook v
              (.structured Webhook.emptyAccountPayload) secret).1 = true :=
  C10_empty_required_field_rejected Webhook.emptyAccountPayload "account_name"
    (by decide) rfl

/-- C3 (code bug): `processWebhook` feeds the injected Metadata Validator
the WHOLE `payload.data` object, not `payload.data.metadata`.  On the
repository's own test fixture (`webhook.service.test.ts`, "Using data
parser → should process webhook payload successfully") — a payload whose
`data.metadata` conforms to the injected parser — the pipeline therefore
throws a `WebhookValidationError` and dispatches nothing, although the
same parser accepts `data.metadata` itself.  The test (and the spec)
expect the dispatch to succeed with validated metadata. -/
theorem C3_validator_gets_whole_data :
    Webhook.processWebhook Webhook.serviceDateParser
        (.structured Webhook.validPayload) "secret"
      = (.error (.validation "Invalid input: expected object with service and date"
          (.obj Webhook.validPayload)), [])
    ∧ Webhook.serviceDateParser (getField Webhook.paymentDataFields "metadata")
      = .ok (.obj Webhook.sampleMetadata) := by
  refine ⟨rfl, rfl⟩

/-- C8: `validateBulkCreateRequest` validates every element independently
and prefixes each per-element error with its 1-based index as
`"Invoice N: "`: within the array length limits, the returned errors are
exactly the concatenation, in element order, of each element's own issues
rendered `"Invoice N: field: message"`.  In particular (the spec's
scenario), for the repository's two-element request whose second element
alone is invalid, the errors are exactly the errors of element 2, each
prefixed `"Invoice 2: "`. -/
theorem C8_bulk_indexing :
    (∀ (isUrl : String → Bool) (now : Int) (maxBulk : Nat)
        (req : Invoice.BulkCreateInvoiceRequest),
        1 ≤ req.invoices.length → req.invoices.length ≤ maxBulk →
        (Invoice.validateBulkCreateRequest isUrl now maxBulk req).errors
          = req.invoices.enum.flatMap (fun p =>
              (Invoice.createInvoiceIssues isUrl now p.2).map (fun iss =>
                "Invoice " ++ toString (p.1 + 1) ++ ": "
                  ++ (if iss.path.isEmpty then ""
                      else Zod.joinPath iss.path ++ ": ") ++ iss.message)))
    ∧ (∀ (isUrl : String → Bool) (now : Int) (maxBulk : Nat),
        2 ≤ maxBulk →
        Invoice.createInvoiceIssues isUrl now Invoice.validInvoiceElem = []
          ∧ (Invoice.validateBulkCreateRequest isUrl now maxBulk
              Invoice.twoElemRequest).errors
            = ["Invoice 2: amount: Too small: expected number to be >0",
               "Invoice 2: amount: Too small: expected number to be >=1",
               "Invoice 2: currency: Invalid currency",
               "Invoice 2: description: description is required"]) := by
  constructor
  · intro isUrl now maxBulk req h1 h2
    have hb : Invoice.bulkIssues isUrl now maxBulk req
        = req.invoices.enum.flatMap (fun p =>
            (Invoice.createInvoiceIssues isUrl now p.2).map (fun iss =>
              ⟨.field "invoices" :: .index p.1 :: iss.path, iss.message⟩)) := by
      unfold Invoice.bulkIssues
      rw [if_pos h1, if_pos h2]
      simp
    have hT : req.invoices.enum.flatMap (fun p =>
          (Invoice.createInvoiceIssues isUrl now p.2).map (fun iss =>
            "Invoice " ++ toString (p.1 + 1) ++ ": "
              ++ (if iss.path.isEmpty then ""
                  else Zod.joinPath iss.path ++ ": ") ++ iss.message))
        = (req.invoices.enum.flatMap (fun p =>
            (Invoice.createInvoiceIssues isUrl now p.2).map (fun iss =>
              (⟨.field "invoices" :: .index p.1 :: iss.path, iss.message⟩ : Zod.Issue)))).map
            Invoice.formatBulkIssue := by
      rw [List.map_flatMap]
      simp only [List.map_map]
      rfl
    unfold Invoice.validateBulkCreateRequest Invoice.bulkSafeParse
    rw [hb, hT]
    cases hE : req.invoices.enum.flatMap (fun p =>
        (Invoice.createInvoiceIssues isUrl now p.2).map (fun iss =>
          (⟨.field "invoices" :: .index p.1 :: iss.path, iss.message⟩ : Zod.Issue))) with
    | nil => rfl
    | cons a t => rfl
  · intro isUrl now maxBulk hmax
    constructor
    · rfl
    · have hlen : Invoice.twoElemRequest.invoices.length = 2 := rfl
      unfold Invoice.validateBulkCreateRequest Invoice.bulkSafeParse Invoice.bulkIssues
      rw [hlen, if_pos (by omega : 1 ≤ 2), if_pos hmax]
      rfl

/-- Witness for C8: the general indexing law at the concrete two-element
request with the URL model, time 0 and limit 100, and the scenario
itself. -/
theorem C8_bulk_indexing_witness :
    ((Invoice.validateBulkCreateRequest Payment.zUrlModel 0 100
        Invoice.twoElemRequest).errors
      = Invoice.twoElemRequest.invoices.enum.flatMap (fun p =>
          (Invoice.createInvoiceIssues Payment.zUrlModel 0 p.2).map (fun iss =>
            "Invoice " ++ toString (p.1 + 1) ++ ": "
              ++ (if iss.path.isEmpty then ""
                  else Zod.joinPath iss.path ++ ": ") ++ iss.message)))
    ∧ (Invoice.validateBulkCreateRequest Payment.zUrlModel 0 100
          Invoice.twoElemRequest).errors
        = ["Invoice 2: amount: Too small: expected number to be >0",
           "Invoice 2: amount: Too small: expected number to be >=1",
           "Invoice 2: currency: Invalid currency",
           "Invoice 2: description: description is required"] :=
  ⟨C8_bulk_indexing.1 Payment.zUrlModel 0 100 Invoice.twoElemRequest
      (by decide) (by decide),
   (C8_bulk_indexing.2 Payment.zUrlModel 0 100 (by decide)).2⟩

/-- C4 (counterexample): `validateCreatePaymentRequest` CAN throw.  On a
conforming request carrying metadata, the injected metadata validator is
invoked before the success check and outside any try/catch, so a validator
whose `parse` throws makes the whole call throw instead of returning a
structured result. -/
theorem C4_validator_throw_escapes :
    Payment.validateCreatePaymentRequest Payment.zUuidModel Payment.zUrlModel 2026
        Payment.throwingValidator Payment.stcRequest
      = .error "metadata validator exploded" := by
  rfl

/-- C4 (amended): provided the injected metadata validator's `parse`
returns normally on every metadata record (in particular for any
non-throwing validator), `validateCreatePaymentRequest` never throws: it
returns a structured result with empty errors and parsed data on success,
and a non-empty list of field-qualified errors on failure. -/
theorem C4_validate_structured_amended :
    ∀ {T : Type} (isUuid isUrl : String → Bool) (currentYear : Int)
      (validator : List (String × String) → Except String T)
      (req : Payment.CreatePaymentRequest),
      (∀ m, ∃ t, validator m = .ok t) →
      ∃ r, Payment.validateCreatePaymentRequest isUuid isUrl currentYear validator req
            = .ok r
        ∧ (r.success = true → r.errors = [] ∧ r.data.isSome = true)
        ∧ (r.success = false → r.errors ≠ []) := by
  intro T isUuid isUrl currentYear validator req hv
  unfold Payment.validateCreatePaymentRequest Payment.createPaymentSafeParse
  cases hI : Payment.createPaymentIssues isUuid isUrl currentYear req with
  | nil =>
    cases hm : (Payment.parseCreatePayment req).metadata with
    | none =>
      refine ⟨⟨true, some (Payment.CreatePaymentData.ofParsed
        (Payment.parseCreatePayment req) none), []⟩, ?_, ?_, ?_⟩
      · simp [hm]
      · intro _; exact ⟨rfl, rfl⟩
      · intro h; exact absurd h (by simp)
    | some m =>
      obtain ⟨t, ht⟩ := hv m
      refine ⟨⟨true, some (Payment.CreatePaymentData.ofParsed
        (Payment.parseCreatePayment req) (some t)), []⟩, ?_, ?_, ?_⟩
      · simp [hm, ht]
      · intro _; exact ⟨rfl, rfl⟩
      · intro h; exact absurd h (by simp)
  | cons a t =>
    refine ⟨⟨false, none, (a :: t).map Zod.formatIssue⟩, rfl, ?_, ?_⟩
    · intro h; exact absurd h (by simp)
    · intro _; simp

/-- Witness for C4 at the concrete conforming request with the identity
(total) metadata validator. -/
theorem C4_validate_structured_witness :
    ∃ r, Payment.validateCreatePaymentRequest Payment.zUuidModel Payment.zUrlModel 2026
          (fun m => Except.ok m) Payment.stcRequest
        = .ok r
      ∧ (r.success = true → r.errors = [] ∧ r.data.isSome = true)
      ∧ (r.success = false → r.errors ≠ []) :=
  C4_validate_structured_amended Payment.zUuidModel Payment.zUrlModel 2026
    (fun m => Except.ok m) Payment.stcRequest (fun m => ⟨m, rfl⟩)
